import Mathlib

/-
Shallow embedding of the tracking-state reconciliation core of tg-parcels
(src/core/parcels_api.go and the older service variant embedded in the same
file), together with proofs about its Diff Engine, Fetch Orchestrator and
Poll Scheduler.
-/

namespace TgParcels

/-- One status entry in a provider's timeline (parcels_api.TrackingEvent as
used by the core: Time, Status, Description). Time is modelled as a natural
number; only equality of times and statuses is ever used by the core. -/
structure TrackingEvent where
  time : Nat
  status : String
  description : String
deriving DecidableEq, Repr

/-- One provider's view of a parcel's journey (parcels_api.TrackingInfo as
used by the core: ApiName and the ordered event list). -/
structure TrackingInfo where
  apiName : String
  events : List TrackingEvent
deriving DecidableEq, Repr

/-- A user's subscription to one tracking number (core.Tracking). -/
structure Tracking where
  id : Int
  userID : Int
  trackingNumber : String
  displayName : String
  trackingInfos : List TrackingInfo
  lastPolledAt : Option Nat
deriving DecidableEq, Repr

/-- The output of a reconciliation pass (core.TrackingUpdate of the newer
service variant, which carries a TrackingError field; the error is modelled
as an optional message string). -/
structure TrackingUpdate where
  trackingNumber : String
  userID : Int
  displayName : String
  newTrackingInfos : List TrackingInfo
  newTrackingEvents : List TrackingEvent
  trackingError : Option String
deriving DecidableEq, Repr

/-- The older service variant's core.TrackingUpdate, which has no
TrackingError field. -/
structure TrackingUpdateV1 where
  trackingNumber : String
  userID : Int
  displayName : String
  newTrackingInfos : List TrackingInfo
  newTrackingEvents : List TrackingEvent
deriving DecidableEq, Repr

/-- Inner membership loop of getTrackingUpdate: a fetched event counts as
already present iff some existing event has the same Status and the same
Time (descriptions are not compared). -/
def eventFound (existingEvents : List TrackingEvent) (fe : TrackingEvent) : Bool :=
  existingEvents.any fun ee => fe.status == ee.status && fe.time == ee.time

/-- Events appended for one matched fetched block. The Go code appends
the address of the per-loop range variable (go.mod declares go 1.19, where
all iterations of a range loop share one variable), so every pointer
appended during the block's loop dereferences, once the function has
returned, to the last element of the fetched block's event list. One
pointer is appended per fetched event with no (status, time) match among
the existing block's events. -/
def newEventsForBlock (fetchedEvents existingEvents : List TrackingEvent) : List TrackingEvent :=
  match fetchedEvents.getLast? with
  | none => []
  | some lastEv =>
      List.replicate (fetchedEvents.countP fun fe => !(eventFound existingEvents fe)) lastEv

/-- Processing of one fetched block by getTrackingUpdate's outer loop:
find the first existing block with the same ApiName. No match appends the
block itself to NewTrackingInfos; a match with equal event count
contributes nothing; a match with a different event count contributes the
block's new events. Returns the pair of contributions
(to NewTrackingInfos, to NewTrackingEvents). -/
def processFetched (existing : List TrackingInfo) (f : TrackingInfo) :
    List TrackingInfo × List TrackingEvent :=
  match existing.find? (fun e => f.apiName == e.apiName) with
  | none => ([f], [])
  | some e0 =>
      if f.events.length == e0.events.length then ([], [])
      else ([], newEventsForBlock f.events e0.events)

/-- Accumulation of the outer loop of getTrackingUpdate over all fetched
blocks, in fetched order. -/
def diffContribs (existing : List TrackingInfo) : List TrackingInfo → List TrackingInfo × List TrackingEvent
  | [] => ([], [])
  | f :: rest =>
      let c := processFetched existing f
      let r := diffContribs existing rest
      (c.1 ++ r.1, c.2 ++ r.2)

/-- The Diff Engine of the newer service variant
(src/core/parcels_api.go, getTrackingUpdate): empty existing snapshot means
the whole fetched sequence is new; otherwise accumulate per-block
contributions and return none when both accumulated lists are empty. The
identity fields of the returned update are left at their zero values, as in
the Go code. -/
def getTrackingUpdate (existing fetched : List TrackingInfo) : Option TrackingUpdate :=
  if existing.isEmpty then
    some ⟨"", 0, "", fetched, [], none⟩
  else
    let c := diffContribs existing fetched
    if c.1.isEmpty && c.2.isEmpty then none
    else some ⟨"", 0, "", c.1, c.2, none⟩

/-- Inner membership loop of the older variant's getTrackingUpdate
(textually identical to the newer one's). -/
def eventFoundV1 (existingEvents : List TrackingEvent) (fe : TrackingEvent) : Bool :=
  existingEvents.any fun ee => fe.status == ee.status && fe.time == ee.time

/-- Events appended for one matched fetched block in the older variant,
with the same per-loop range variable aliasing as the newer one. -/
def newEventsForBlockV1 (fetchedEvents existingEvents : List TrackingEvent) : List TrackingEvent :=
  match fetchedEvents.getLast? with
  | none => []
  | some lastEv =>
      List.replicate (fetchedEvents.countP fun fe => !(eventFoundV1 existingEvents fe)) lastEv

/-- Per-block processing of the older variant's getTrackingUpdate. -/
def processFetchedV1 (existing : List TrackingInfo) (f : TrackingInfo) :
    List TrackingInfo × List TrackingEvent :=
  match existing.find? (fun e => f.apiName == e.apiName) with
  | none => ([f], [])
  | some e0 =>
      if f.events.length == e0.events.length then ([], [])
      else ([], newEventsForBlockV1 f.events e0.events)

/-- Accumulation of the older variant's outer loop over all fetched blocks. -/
def diffContribsV1 (existing : List TrackingInfo) : List TrackingInfo → List TrackingInfo × List TrackingEvent
  | [] => ([], [])
  | f :: rest =>
      let c := processFetchedV1 existing f
      let r := diffContribsV1 existing rest
      (c.1 ++ r.1, c.2 ++ r.2)

/-- The Diff Engine of the older service variant (the getTrackingUpdate at
lines 211-263 of src/core/parcels_api.go), whose body is textually
identical to the newer one but whose update type lacks the error field. -/
def getTrackingUpdateV1 (existing fetched : List TrackingInfo) : Option TrackingUpdateV1 :=
  if existing.isEmpty then
    some ⟨"", 0, "", fetched, []⟩
  else
    let c := diffContribsV1 existing fetched
    if c.1.isEmpty && c.2.isEmpty then none
    else some ⟨"", 0, "", c.1, c.2⟩

/-- Forgetting the newer update type's error field. -/
def dropError (u : TrackingUpdate) : TrackingUpdateV1 :=
  ⟨u.trackingNumber, u.userID, u.displayName, u.newTrackingInfos, u.newTrackingEvents⟩

/-- Outcome of the call to the Provider Client, passed to the orchestrator
model as an input (the HTTP client is an external collaborator). -/
inductive FetchResult where
  | ok (infos : List TrackingInfo)
  | err (msg : String)
deriving DecidableEq, Repr

/-- Observable side effects of one Fetch Orchestrator run, in the order in
which they happen: a successful store write, a failed store write attempt,
or a publish on the update stream. -/
inductive Effect where
  | storeSaveOk (t : Tracking)
  | storeSaveFailed (t : Tracking)
  | publish (u : TrackingUpdate)
deriving DecidableEq, Repr

/-- Result of one Fetch Orchestrator run: the ordered trace of side effects
and the final value of the (mutated in place) Tracking. -/
structure RunResult where
  effects : List Effect
  tracking : Tracking
deriving DecidableEq, Repr

/-- The Fetch Orchestrator (src/core/parcels_api.go, fetchTrackingInfo of
the newer variant, the one taking a reportErrors flag). The fetch outcome,
whether the store save would succeed, and the current time are inputs of
the model; logging is not modelled. On fetch error it publishes an update
carrying only the identity fields and the error when reportErrors is set,
else nothing. On success it runs the Diff Engine; on no change it stops;
on a change it overwrites the snapshot, stamps LastPolledAt, saves, and
publishes the update with identity fields filled in only after a
successful save. -/
def fetchTrackingInfo (tracking : Tracking) (fetchResult : FetchResult)
    (reportErrors : Bool) (saveSucceeds : Bool) (now : Nat) : RunResult :=
  match fetchResult with
  | .err msg =>
      if reportErrors then
        { effects := [Effect.publish
            ⟨tracking.trackingNumber, tracking.userID, tracking.displayName, [], [], some msg⟩],
          tracking := tracking }
      else
        { effects := [], tracking := tracking }
  | .ok fetchedTrackingInfos =>
      match getTrackingUpdate tracking.trackingInfos fetchedTrackingInfos with
      | none => { effects := [], tracking := tracking }
      | some upd =>
          let tracking' : Tracking :=
            { tracking with trackingInfos := fetchedTrackingInfos, lastPolledAt := some now }
          if saveSucceeds then
            { effects := [Effect.storeSaveOk tracking',
                Effect.publish { upd with trackingNumber := tracking.trackingNumber,
                                          userID := tracking.userID,
                                          displayName := tracking.displayName }],
              tracking := tracking' }
          else
            { effects := [Effect.storeSaveFailed tracking'], tracking := tracking' }

/-- External signals observed by the polling loop: a ticker tick or the
cancellation of the context. The signal list linearizes the nondeterministic
select between the two channels. -/
inductive Sig where
  | tick
  | cancel
deriving DecidableEq, Repr

/-- Observable events of the Poll Scheduler: one reconciliation pass over
all overdue trackings (one s.poll call), a ticker tick being consumed, or
the loop stopping on cancellation. -/
inductive SchedEvent where
  | pass
  | ticked
  | stopped
deriving DecidableEq, Repr

/-- The select loop shared by both Start variants: a consumed tick runs one
poll pass; cancellation stops the loop. -/
def pollLoop : List Sig → List SchedEvent
  | [] => []
  | Sig.cancel :: _ => [SchedEvent.stopped]
  | Sig.tick :: rest => SchedEvent.ticked :: SchedEvent.pass :: pollLoop rest

/-- Start of the newer service variant (lines 342-359 of
src/core/parcels_api.go): the spawned goroutine first runs one immediate
poll pass, then enters the ticker loop. -/
def startTrace (sigs : List Sig) : List SchedEvent :=
  SchedEvent.pass :: pollLoop sigs

/-- Start of the older service variant (lines 114-129 of
src/core/parcels_api.go): the spawned goroutine enters the ticker loop
directly, with no immediate pass. -/
def startTraceV1 (sigs : List Sig) : List SchedEvent :=
  pollLoop sigs

/-- Number of ticks the loop consumes before the first cancellation. -/
def ticksBeforeCancel : List Sig → Nat
  | [] => 0
  | Sig.cancel :: _ => 0
  | Sig.tick :: rest => ticksBeforeCancel rest + 1

/-- A sample tracking event. -/
def evA : TrackingEvent := ⟨1, "registered", "package registered"⟩

/-- A sample tracking event with a status and time different from evA. -/
def evB : TrackingEvent := ⟨2, "shipped", "package shipped"⟩

/-- A sample tracking event with a status and time different from evA and evB. -/
def evC : TrackingEvent := ⟨3, "arrived", "package arrived"⟩

/-- A sample tracking-info block of provider apiA. -/
def infoA : TrackingInfo := ⟨"apiA", [evA]⟩

/-- A sample tracking-info block of provider apiB. -/
def infoB : TrackingInfo := ⟨"apiB", [evB]⟩

/-- A snapshot with two blocks sharing one ApiName but with different event
counts. -/
def dupSnapshot : List TrackingInfo := [⟨"apiA", [evA]⟩, ⟨"apiA", [evA, evB]⟩]

/-- A snapshot whose block ApiNames are pairwise distinct. -/
def distinctSnapshot : List TrackingInfo := [infoA, infoB]

/-- A sample tracking whose snapshot is [infoA]. -/
def trackA : Tracking := ⟨7, 42, "TRACK123", "shoes", [infoA], some 5⟩

/-- A sample tracking with an empty snapshot and no last-polled time. -/
def trackFresh : Tracking := ⟨7, 42, "TRACK123", "shoes", [], none⟩

/-- In a list of blocks with pairwise distinct ApiNames, the search for the
first block with a member's ApiName finds that member itself. -/
theorem find_self_of_nodup_names (l : List TrackingInfo)
    (h : (l.map TrackingInfo.apiName).Nodup) (x : TrackingInfo) (hx : x ∈ l) :
    l.find? (fun e => x.apiName == e.apiName) = some x := by
  induction l with
  | nil => cases hx
  | cons a t ih =>
      rw [List.map_cons, List.nodup_cons] at h
      rcases List.mem_cons.mp hx with hxa | hxt
      · subst hxa
        exact List.find?_cons_of_pos _ (by simp)
      · have hne : x.apiName ≠ a.apiName := by
          intro heq
          exact h.1 (heq ▸ List.mem_map_of_mem TrackingInfo.apiName hxt)
        rw [List.find?_cons_of_neg _ (by simpa using hne)]
        exact ih h.2 hxt

/-- When every fetched block contributes nothing, the accumulated
contributions are empty. -/
theorem diffContribs_of_all_nil (existing fetched : List TrackingInfo)
    (h : ∀ f ∈ fetched, processFetched existing f = ([], [])) :
    diffContribs existing fetched = ([], []) := by
  induction fetched with
  | nil => rfl
  | cons f rest ih =>
      have hf := h f (List.mem_cons_self f rest)
      have hrest := ih fun g hg => h g (List.mem_cons_of_mem f hg)
      simp [diffContribs, hf, hrest]

/-- The accumulated contributions split over an append of fetched lists. -/
theorem diffContribs_append (existing l₁ l₂ : List TrackingInfo) :
    diffContribs existing (l₁ ++ l₂) =
      ((diffContribs existing l₁).1 ++ (diffContribs existing l₂).1,
       (diffContribs existing l₁).2 ++ (diffContribs existing l₂).2) := by
  induction l₁ with
  | nil => simp [diffContribs]
  | cons f rest ih => simp [diffContribs, ih]

/-- Claim C1, counterexample: the Diff Engine applied to identical inputs is
not always the null result. For this particular snapshot, holding two
blocks with the same ApiName where the first block's event count differs
from the second's and the second block has an event with no identity match
in the first, getTrackingUpdate(X, X) returns an update (the second block
is matched against the first, the counts differ, and its event missing
from the first block is emitted), refuting the claim's inclusion of
duplicate-ApiName snapshots. -/
theorem c1_diff_self_counterexample :
    getTrackingUpdate dupSnapshot dupSnapshot = some ⟨"", 0, "", [], [evB], none⟩ ∧
    getTrackingUpdate dupSnapshot dupSnapshot ≠ none := by decide

/-- Claim C1, amended: for every non-empty snapshot X whose blocks have
pairwise distinct ApiNames, getTrackingUpdate(X, X) returns the null
result. -/
theorem c1_diff_self_no_change (X : List TrackingInfo) (hne : X ≠ [])
    (hnodup : (X.map TrackingInfo.apiName).Nodup) :
    getTrackingUpdate X X = none := by
  have hproc : ∀ f ∈ X, processFetched X f = ([], []) := by
    intro f hf
    unfold processFetched
    rw [find_self_of_nodup_names X hnodup f hf]
    simp
  have hc := diffContribs_of_all_nil X X hproc
  simp [getTrackingUpdate, hc, List.isEmpty_iff, hne]

/-- Witness for c1_diff_self_no_change at a concrete two-provider
snapshot. -/
theorem c1_diff_self_no_change_witness :
    (distinctSnapshot ≠ [] ∧ (distinctSnapshot.map TrackingInfo.apiName).Nodup) ∧
    getTrackingUpdate distinctSnapshot distinctSnapshot = none :=
  ⟨⟨by decide, by decide⟩,
   c1_diff_self_no_change distinctSnapshot (by decide) (by decide)⟩

/-- Claim C2: evaluation of getTrackingUpdate at a failing input. With
existing block apiA holding [evA] and fetched block apiA holding
[evB, evC, evA], the spec requires NewTrackingEvents to be the new events
[evB, evC] in fetched order; the code instead emits two copies of evA, the
last fetched event, because every appended pointer aliases the shared
go 1.19 range variable. -/
theorem c2_new_events_aliasing_eval :
    getTrackingUpdate [infoA] [⟨"apiA", [evB, evC, evA]⟩] =
      some ⟨"", 0, "", [], [evA, evA], none⟩ ∧
    ([evA, evA] : List TrackingEvent) ≠ [evB, evC] := by decide

/-- Claim C3: with an empty existing snapshot, the result is an update whose
NewTrackingInfos is exactly the fetched sequence and whose
NewTrackingEvents is empty (identity fields at their zero values). -/
theorem c3_first_fetch_all_new (fetched : List TrackingInfo) (hne : fetched ≠ []) :
    getTrackingUpdate [] fetched = some ⟨"", 0, "", fetched, [], none⟩ := rfl

/-- Witness for c3_first_fetch_all_new at a concrete one-block fetch. -/
theorem c3_first_fetch_all_new_witness :
    ([infoA] : List TrackingInfo) ≠ [] ∧
    getTrackingUpdate [] [infoA] = some ⟨"", 0, "", [infoA], [], none⟩ :=
  ⟨by decide, c3_first_fetch_all_new [infoA] (by decide)⟩

/-- Claim C4: a fetched block whose ApiName search finds an existing block
with an equal event count contributes nothing: deleting such a block from
the fetched sequence leaves the result unchanged, whatever its event
descriptions. -/
theorem c4_equal_count_contributes_nothing (existing pre post : List TrackingInfo)
    (b e0 : TrackingInfo)
    (hfind : existing.find? (fun e => b.apiName == e.apiName) = some e0)
    (hlen : b.events.length = e0.events.length) :
    getTrackingUpdate existing (pre ++ b :: post) =
      getTrackingUpdate existing (pre ++ post) := by
  have hex : existing.isEmpty = false := by
    cases existing with
    | nil => simp [List.find?] at hfind
    | cons a t => rfl
  have hb : processFetched existing b = ([], []) := by
    unfold processFetched
    rw [hfind]
    simp [hlen]
  have h1 : diffContribs existing (pre ++ b :: post) = diffContribs existing (pre ++ post) := by
    rw [diffContribs_append, diffContribs_append]
    simp [diffContribs, hb]
  simp [getTrackingUpdate, hex, h1]

/-- Witness for c4_equal_count_contributes_nothing: a fetched apiA block
with one event whose status, time and description all differ from the
stored apiA event still contributes nothing. -/
theorem c4_equal_count_contributes_nothing_witness :
    ([infoA].find? (fun e => (⟨"apiA", [evC]⟩ : TrackingInfo).apiName == e.apiName) = some infoA ∧
     (⟨"apiA", [evC]⟩ : TrackingInfo).events.length = infoA.events.length) ∧
    getTrackingUpdate [infoA] ([] ++ (⟨"apiA", [evC]⟩ : TrackingInfo) :: []) =
      getTrackingUpdate [infoA] ([] ++ []) :=
  ⟨⟨by decide, by decide⟩,
   c4_equal_count_contributes_nothing [infoA] [] [] ⟨"apiA", [evC]⟩ infoA (by decide) (by decide)⟩

/-- Claim C5, counterexample: with both inputs empty, getTrackingUpdate
returns an update whose two lists are both empty, not the null result, so
the Diff Engine can return an update with nothing in it. -/
theorem c5_empty_update_counterexample :
    getTrackingUpdate [] [] = some ⟨"", 0, "", [], [], none⟩ := rfl

/-- Claim C5, amended: whenever the two inputs are not both empty, an
update returned by getTrackingUpdate has at least one non-empty list. -/
theorem c5_update_nonempty (existing fetched : List TrackingInfo)
    (hne : existing ≠ [] ∨ fetched ≠ []) (u : TrackingUpdate)
    (h : getTrackingUpdate existing fetched = some u) :
    u.newTrackingInfos ≠ [] ∨ u.newTrackingEvents ≠ [] := by
  unfold getTrackingUpdate at h
  cases existing with
  | nil =>
      simp only [List.isEmpty_nil, if_true, Option.some.injEq] at h
      subst h
      rcases hne with h1 | h2
      · exact absurd rfl h1
      · exact Or.inl h2
  | cons a t =>
      simp only [List.isEmpty_cons, Bool.false_eq_true, if_false] at h
      split at h
      · exact Option.noConfusion h
      · rename_i hcond
        rw [Option.some.injEq] at h
        subst h
        rw [Bool.and_eq_true, not_and_or] at hcond
        simpa [List.isEmpty_iff] using hcond

/-- Witness for c5_update_nonempty at a concrete first fetch. -/
theorem c5_update_nonempty_witness :
    (([] : List TrackingInfo) ≠ [] ∨ ([infoA] : List TrackingInfo) ≠ []) ∧
    ((⟨"", 0, "", [infoA], [], none⟩ : TrackingUpdate).newTrackingInfos ≠ [] ∨
     (⟨"", 0, "", [infoA], [], none⟩ : TrackingUpdate).newTrackingEvents ≠ []) :=
  ⟨Or.inr (by decide),
   c5_update_nonempty [] [infoA] (Or.inr (by decide)) ⟨"", 0, "", [infoA], [], none⟩ rfl⟩

/-- Claim C6: when the fetch fails, the orchestrator performs no store
write and leaves the tracking unchanged, and it publishes exactly one
update carrying only the identity fields and the error when reportErrors
is true, and nothing at all when it is false. -/
theorem c6_fetch_error_effects (tracking : Tracking) (msg : String)
    (reportErrors saveSucceeds : Bool) (now : Nat) :
    fetchTrackingInfo tracking (FetchResult.err msg) reportErrors saveSucceeds now =
      { effects :=
          if reportErrors then
            [Effect.publish
              ⟨tracking.trackingNumber, tracking.userID, tracking.displayName, [], [], some msg⟩]
          else [],
        tracking := tracking } := by
  cases reportErrors <;> rfl

/-- Claim C7: when the fetch succeeds and the Diff Engine returns the null
result, the orchestrator produces no side effect at all and the tracking,
its LastPolledAt included, keeps its previous value. -/
theorem c7_no_change_no_effects (tracking : Tracking) (fetched : List TrackingInfo)
    (reportErrors saveSucceeds : Bool) (now : Nat)
    (h : getTrackingUpdate tracking.trackingInfos fetched = none) :
    fetchTrackingInfo tracking (FetchResult.ok fetched) reportErrors saveSucceeds now =
      { effects := [], tracking := tracking } := by
  simp [fetchTrackingInfo, h]

/-- Witness for c7_no_change_no_effects: a second poll returning the stored
snapshot changes nothing. -/
theorem c7_no_change_no_effects_witness :
    getTrackingUpdate trackA.trackingInfos [infoA] = none ∧
    fetchTrackingInfo trackA (FetchResult.ok [infoA]) false true 99 =
      { effects := [], tracking := trackA } :=
  ⟨by decide, c7_no_change_no_effects trackA [infoA] false true 99 (by decide)⟩

/-- Claim C8: when the Diff Engine returns an update, the orchestrator
overwrites the snapshot, stamps LastPolledAt with the current time and
saves; on a successful save the trace is exactly the save followed by the
publish of the update with identity fields filled in, so persistence
happens before publication; on a failed save the trace is the failed
attempt alone and nothing is published. -/
theorem c8_change_persist_then_publish (tracking : Tracking) (fetched : List TrackingInfo)
    (upd : TrackingUpdate) (reportErrors : Bool) (now : Nat)
    (h : getTrackingUpdate tracking.trackingInfos fetched = some upd) :
    fetchTrackingInfo tracking (FetchResult.ok fetched) reportErrors true now =
      { effects :=
          [Effect.storeSaveOk { tracking with trackingInfos := fetched, lastPolledAt := some now },
           Effect.publish { upd with trackingNumber := tracking.trackingNumber,
                                     userID := tracking.userID,
                                     displayName := tracking.displayName }],
        tracking := { tracking with trackingInfos := fetched, lastPolledAt := some now } } ∧
    fetchTrackingInfo tracking (FetchResult.ok fetched) reportErrors false now =
      { effects :=
          [Effect.storeSaveFailed
            { tracking with trackingInfos := fetched, lastPolledAt := some now }],
        tracking := { tracking with trackingInfos := fetched, lastPolledAt := some now } } := by
  constructor <;> simp [fetchTrackingInfo, h]

/-- Witness for c8_change_persist_then_publish: the first fetch of a fresh
tracking persists the snapshot and then publishes it. -/
theorem c8_change_persist_then_publish_witness :
    getTrackingUpdate trackFresh.trackingInfos [infoA] = some ⟨"", 0, "", [infoA], [], none⟩ ∧
    (fetchTrackingInfo trackFresh (FetchResult.ok [infoA]) true true 7 =
      { effects :=
          [Effect.storeSaveOk ⟨7, 42, "TRACK123", "shoes", [infoA], some 7⟩,
           Effect.publish ⟨"TRACK123", 42, "shoes", [infoA], [], none⟩],
        tracking := ⟨7, 42, "TRACK123", "shoes", [infoA], some 7⟩ } ∧
     fetchTrackingInfo trackFresh (FetchResult.ok [infoA]) true false 7 =
      { effects := [Effect.storeSaveFailed ⟨7, 42, "TRACK123", "shoes", [infoA], some 7⟩],
        tracking := ⟨7, 42, "TRACK123", "shoes", [infoA], some 7⟩ }) :=
  ⟨by decide,
   c8_change_persist_then_publish trackFresh [infoA] ⟨"", 0, "", [infoA], [], none⟩ true 7
     (by decide)⟩

/-- The shared ticker loop runs exactly one poll pass per tick consumed
before the first cancellation. -/
theorem pollLoop_count_pass (sigs : List Sig) :
    (pollLoop sigs).count SchedEvent.pass = ticksBeforeCancel sigs := by
  induction sigs with
  | nil => rfl
  | cons s rest ih =>
      cases s with
      | tick => simp [pollLoop, ticksBeforeCancel, List.count_cons, ih]
      | cancel => simp [pollLoop, ticksBeforeCancel, List.count_cons]

/-- Claim C9, counterexample: started and cancelled before any tick, the
older variant's Start runs no reconciliation pass at all, while the claim
requires one immediate pass before the first tick (which the newer
variant's Start does run). -/
theorem c9_immediate_pass_counterexample :
    (startTraceV1 []).count SchedEvent.pass = 0 ∧
    (startTrace []).count SchedEvent.pass = 1 := by decide

/-- Claim C9, amended: the newer variant's Start emits a poll pass first,
before consuming any signal, and in total runs one pass plus one per tick
until cancelled; the older variant's Start runs only the one pass per tick,
with no immediate pass. -/
theorem c9_start_pass_schedule (sigs : List Sig) :
    (startTrace sigs).head? = some SchedEvent.pass ∧
    (startTrace sigs).count SchedEvent.pass = ticksBeforeCancel sigs + 1 ∧
    (startTraceV1 sigs).count SchedEvent.pass = ticksBeforeCancel sigs := by
  refine ⟨rfl, ?_, pollLoop_count_pass sigs⟩
  simp [startTrace, List.count_cons, pollLoop_count_pass sigs]

/-- The two variants' per-block event collection agrees. -/
theorem newEventsForBlock_v1_eq (fe ee : List TrackingEvent) :
    newEventsForBlockV1 fe ee = newEventsForBlock fe ee := rfl

/-- The two variants' per-block processing agrees. -/
theorem processFetched_v1_eq (existing : List TrackingInfo) (f : TrackingInfo) :
    processFetchedV1 existing f = processFetched existing f := rfl

/-- The two variants' accumulated contributions agree. -/
theorem diffContribs_v1_eq (existing fetched : List TrackingInfo) :
    diffContribsV1 existing fetched = diffContribs existing fetched := by
  induction fetched with
  | nil => rfl
  | cons f rest ih => simp [diffContribsV1, diffContribs, processFetched_v1_eq, ih]

/-- Claim C10: the two getTrackingUpdate implementations are extensionally
equal: on every pair of inputs the older variant returns exactly the newer
variant's result with the error field (which the newer variant never sets)
forgotten. -/
theorem c10_variants_agree (existing fetched : List TrackingInfo) :
    getTrackingUpdateV1 existing fetched = (getTrackingUpdate existing fetched).map dropError := by
  unfold getTrackingUpdateV1 getTrackingUpdate
  rw [diffContribs_v1_eq]
  by_cases hex : existing.isEmpty
  · simp [hex, dropError]
  · by_cases hcond :
      ((diffContribs existing fetched).1.isEmpty && (diffContribs existing fetched).2.isEmpty) = true
    · simp [hex, hcond, dropError]
    · simp [hex, hcond, dropError]

end TgParcels
